import Mathlib

/-!
Verification development for the slot-miner miniapp's two core components:

* the global event ingestion engine of `src/hooks/use-global-spin.ts`
  (one-time backfill of the most recent Rig__Win plus push-delivered
  Rig__Spin / Rig__Win handlers), and
* the local transaction lifecycle state machine of the main page component
  (`handleSpin`, the receipt effect, the push-match and balance-delta
  detectors, and the VRF hard timeout).

Every definition below is a shallow embedding of the corresponding
TypeScript: JS `bigint` values become `Nat` (JS bigints are arbitrary
precision, so no wrap-around is modelled), timers armed via `setTimeout`
become `Option` deadlines in milliseconds, React `useState` fields become
structure fields, and fallible external calls become `Except` parameters.
The floating-point presentation strings (`amountFormatted`, `usdValue`)
are display-only derivations and are not part of the embedded state.
-/

/-! ## Global ingestion model (`src/hooks/use-global-spin.ts`) -/

/-- `UserInfo` as returned by the Neynar identity lookup. -/
structure UserInfo where
  username : Option String
  displayName : Option String
  pfpUrl : Option String
deriving DecidableEq

/-- The five payout tiers of `SlotSymbol.tier`. -/
inductive Tier where
  | small
  | medium
  | big
  | mega
  | jackpot
deriving DecidableEq

/-- `SlotSymbol` from `use-global-spin.ts`. -/
structure SlotSymbol where
  emoji : String
  name : String
  oddsBps : Nat
  payout : String
  tier : Tier
deriving DecidableEq

/-- First entry of `SLOT_SYMBOLS`; also the fallback of `getSymbolFromOdds`
(the source falls back to `SLOT_SYMBOLS[0]`). -/
def cherrySymbol : SlotSymbol :=
  { emoji := "🍒", name := "Cherry", oddsBps := 100, payout := "1%", tier := Tier.small }

/-- The `SLOT_SYMBOLS` table of `use-global-spin.ts`. -/
def SLOT_SYMBOLS : List SlotSymbol :=
  [ cherrySymbol,
    { emoji := "🍋", name := "Lemon", oddsBps := 200, payout := "2%", tier := Tier.small },
    { emoji := "📊", name := "Bar", oddsBps := 500, payout := "5%", tier := Tier.medium },
    { emoji := "🔔", name := "Bell", oddsBps := 1000, payout := "10%", tier := Tier.big },
    { emoji := "7️⃣", name := "Seven", oddsBps := 2500, payout := "25%", tier := Tier.mega },
    { emoji := "💎", name := "Diamond", oddsBps := 5000, payout := "50%", tier := Tier.jackpot } ]

/-- `getSymbolFromOdds`: find the symbol with the given odds, falling back to
`SLOT_SYMBOLS[0]`. -/
def getSymbolFromOdds (oddsBps : Nat) : SlotSymbol :=
  (SLOT_SYMBOLS.find? (fun s => s.oddsBps = oddsBps)).getD cherrySymbol

/-- `SPIN_TIMEOUT_MS` from `use-global-spin.ts` (liveness timeout). -/
def SPIN_TIMEOUT_MS : Nat := 120000

/-- Duration of the win display timeout (`setTimeout(..., 10000)` in the
Rig__Win handler). -/
def WIN_DISPLAY_MS : Nat := 10000

/-- Lookback window of the one-time backfill (`currentBlock - BigInt(1800)`). -/
def LOOKBACK : Nat := 1800

/-- A raw `Rig__Spin` log as decoded by the event watcher. -/
structure SpinLog where
  sender : String
  spinner : String
  epochId : Nat
  price : Nat
deriving DecidableEq

/-- A raw `Rig__Win` log as decoded by `getLogs` / the event watcher
(`blockNumber` is carried by every viem log). -/
structure WinLog where
  spinner : String
  epochId : Nat
  oddsPercent : Nat
  amount : Nat
  txHash : String
  blockNumber : Nat
deriving DecidableEq

/-- Spin occurrence id: `spin-SPINNER-EPOCH`. -/
def spinOccurrenceId (spinner : String) (epochId : Nat) : String :=
  "spin-" ++ spinner ++ "-" ++ toString epochId

/-- Win occurrence id: `win-SPINNER-EPOCH-TXHASH`. -/
def winOccurrenceId (spinner : String) (epochId : Nat) (txHash : String) : String :=
  "win-" ++ spinner ++ "-" ++ toString epochId ++ "-" ++ txHash

/-- `GlobalSpinState` of `use-global-spin.ts`. -/
structure GlobalSpinState where
  id : String
  spinner : String
  epochId : Nat
  timestamp : Nat
  user : Option UserInfo
deriving DecidableEq

/-- `GlobalWinState` of `use-global-spin.ts` (without the floating-point
presentation strings `amountFormatted` / `usdValue`, which are derived for
display only). -/
structure GlobalWinState where
  id : String
  spinner : String
  epochId : Nat
  oddsBps : Nat
  amount : Nat
  timestamp : Nat
  user : Option UserInfo
  symbol : SlotSymbol
deriving DecidableEq

/-- The state owned by `useGlobalSpin`: the four `useState` fields, the two
timer refs (modelled as the armed deadline, `none` when cancelled or fired;
the liveness timer also carries the spin id captured by its callback), and
the `hasFetchedInitial` ref guarding the one-time backfill. -/
structure GlobalState where
  activeSpin : Option GlobalSpinState
  lastWin : Option GlobalWinState
  isGlobalSpinning : Bool
  showWinResult : Bool
  spinTimeout : Option (String × Nat)
  winDisplayTimeout : Option Nat
  hasFetchedInitial : Bool
deriving DecidableEq

/-- Initial state of a freshly mounted `useGlobalSpin`. -/
def initialGlobalState : GlobalState :=
  { activeSpin := none, lastWin := none, isGlobalSpinning := false, showWinResult := false,
    spinTimeout := none, winDisplayTimeout := none, hasFetchedInitial := false }

/-- The `GlobalSpinState` built by the Rig__Spin handler (`user` is patched
in later by the asynchronous identity lookup). -/
def mkGlobalSpin (l : SpinLog) (now : Nat) : GlobalSpinState :=
  { id := spinOccurrenceId l.spinner l.epochId, spinner := l.spinner, epochId := l.epochId,
    timestamp := now, user := none }

/-- The `GlobalWinState` built by the Rig__Win handler and by the backfill. -/
def mkGlobalWin (l : WinLog) (now : Nat) : GlobalWinState :=
  { id := winOccurrenceId l.spinner l.epochId l.txHash, spinner := l.spinner,
    epochId := l.epochId, oddsBps := l.oddsPercent, amount := l.amount, timestamp := now,
    user := none, symbol := getSymbolFromOdds l.oddsPercent }

/-- Loop body of the `Rig__Spin` `onLogs` handler: set the active spin, mark
the machine live, drop the win highlight, and (re-)arm the liveness timeout
(`clearTimeout` of any previous timer followed by `setTimeout` for
`SPIN_TIMEOUT_MS`, its callback capturing the new spin id). -/
def applySpinLog (l : SpinLog) (now : Nat) (s : GlobalState) : GlobalState :=
  { s with
    activeSpin := some (mkGlobalSpin l now),
    isGlobalSpinning := true,
    showWinResult := false,
    spinTimeout := some (spinOccurrenceId l.spinner l.epochId, now + SPIN_TIMEOUT_MS) }

/-- Loop body of the `Rig__Win` `onLogs` handler: cancel the liveness timer,
clear the active spin, record the win, raise the highlight, and (re-)arm the
10s display timeout. -/
def applyWinLog (l : WinLog) (now : Nat) (s : GlobalState) : GlobalState :=
  { s with
    spinTimeout := none,
    activeSpin := none,
    isGlobalSpinning := false,
    lastWin := some (mkGlobalWin l now),
    showWinResult := true,
    winDisplayTimeout := some (now + WIN_DISPLAY_MS) }

/-- Firing of the liveness timeout armed for the spin id `i`: clear the
active spin only if it still has that id (`prev?.id === id ? null : prev`)
and unconditionally stop the live indicator. -/
def fireSpinTimeout (i : String) (s : GlobalState) : GlobalState :=
  { s with
    activeSpin := if s.activeSpin.map (fun sp => sp.id) = some i then none else s.activeSpin,
    isGlobalSpinning := false,
    spinTimeout := none }

/-- Firing of the win display timeout: clears `showWinResult` only. -/
def fireWinDisplayTimeout (s : GlobalState) : GlobalState :=
  { s with showWinResult := false, winDisplayTimeout := none }

/-- Identity patch of the asynchronous user lookup in the spin handler:
`setActiveSpin(prev => prev?.id === id ? { ...prev, user } : prev)`. -/
def patchSpinUser (i : String) (u : UserInfo) (s : GlobalState) : GlobalState :=
  { s with
    activeSpin := s.activeSpin.map (fun sp => if sp.id = i then { sp with user := some u } else sp) }

/-- Identity patch of the asynchronous user lookup in the win handler and in
the backfill. -/
def patchWinUser (i : String) (u : UserInfo) (s : GlobalState) : GlobalState :=
  { s with
    lastWin := s.lastWin.map (fun w => if w.id = i then { w with user := some u } else w) }

/-- `fromBlock` of the backfill: `currentBlock - 1800n`, clamped to zero by
`fromBlock > 0n ? fromBlock : 0n` (the subtraction is on JS bigints and may
go negative, hence the `Int` detour). -/
def backfillFromBlock (currentBlock : Nat) : Nat :=
  let fromBlock : Int := (currentBlock : Int) - (LOOKBACK : Int)
  if fromBlock > 0 then fromBlock.toNat else 0

/-- Membership of a log in the backfill fetch range
`[backfillFromBlock currentBlock, currentBlock]` requested from `getLogs`. -/
def inBackfillWindow (currentBlock : Nat) (l : WinLog) : Bool :=
  decide (backfillFromBlock currentBlock ≤ l.blockNumber) && decide (l.blockNumber ≤ currentBlock)

/-- The mount effect around `fetchRecentWin`.  `chainWinLogs` is the chain's
full `Rig__Win` history in block order; `getLogs` returns the slice within
`[backfillFromBlock currentBlock, currentBlock]`.  The effect returns early
when `hasFetchedInitial` is already set, and it sets that flag before the
asynchronous fetch runs, so the flag is set even when the fetch fails
(`fetchFails = true`, the catch only logs).  On success only the most recent
win of the window is applied (`logs[logs.length - 1]`), touching `lastWin`
alone: the highlight, the active spin and the timers are left as they are. -/
def mountFetch (chainWinLogs : List WinLog) (fetchFails : Bool) (currentBlock : Nat)
    (now : Nat) (s : GlobalState) : GlobalState :=
  if s.hasFetchedInitial then s
  else
    let s1 := { s with hasFetchedInitial := true }
    if fetchFails then s1
    else
      let logs := chainWinLogs.filter (inBackfillWindow currentBlock)
      match logs.getLast? with
      | none => s1
      | some l => { s1 with lastWin := some (mkGlobalWin l now) }

/-- The `for (const log of logs)` loop of the spin handler over a batch. -/
def applySpinLogs (logs : List SpinLog) (now : Nat) (s : GlobalState) : GlobalState :=
  logs.foldl (fun acc l => applySpinLog l now acc) s

/-- The `for (const log of logs)` loop of the win handler over a batch. -/
def applyWinLogs (logs : List WinLog) (now : Nat) (s : GlobalState) : GlobalState :=
  logs.foldl (fun acc l => applyWinLog l now acc) s

/-! ## Local transaction lifecycle model (main page component) -/

/-- `SpinState` of the page component (`waiting_vrf` is the spec's
`awaiting_resolution`). -/
inductive SpinState where
  | idle
  | pending
  | confirming
  | waiting_vrf
deriving DecidableEq

/-- `RigState` as returned by the multicall `getRig` read. -/
structure RigState where
  ups : Nat
  unitPrice : Nat
  unitBalance : Nat
  ethBalance : Nat
  wethBalance : Nat
  prizePool : Nat
  pendingEmissions : Nat
  epochId : Nat
  price : Nat
deriving DecidableEq

/-- `VRF_TIMEOUT_MS` of the page component (hard resolution timeout). -/
def VRF_TIMEOUT_MS : Nat := 120000

/-- `DEADLINE_BUFFER_SECONDS` of the page component. -/
def DEADLINE_BUFFER_SECONDS : Nat := 900

/-- The user-session state of the lifecycle machine: `localSpinState` and
`pendingEpochId` (`useState`), `preSpinBalanceRef` and the two detector
timers (`useRef`, modelled as the armed deadline respectively an armed
flag for the polling interval), and the pending write handle owned by
`useWriteContract` (`resetWrite` clears it). -/
structure LocalState where
  localSpinState : SpinState
  pendingEpochId : Option Nat
  preSpinBalance : Option Nat
  vrfTimeout : Option Nat
  balancePollArmed : Bool
  txHash : Option Nat
deriving DecidableEq

/-- Session-initial local state. -/
def initialLocalState : LocalState :=
  { localSpinState := SpinState.idle, pendingEpochId := none, preSpinBalance := none,
    vrfTimeout := none, balancePollArmed := false, txHash := none }

/-- External calls issued by `handleSpin` / the detectors, recorded so that
"no connection was attempted / no transaction was submitted" is a statement
about the returned action list. -/
inductive WalletAction where
  | connectWallet
  | submitTx (epochId : Nat) (deadline : Nat) (maxPrice : Nat) (value : Nat)
  | refetchRig
deriving DecidableEq

/-- `handleWinDetected`: cancel both remaining detectors, reset the machine
to idle, drop the pre-spin balance snapshot, refetch the rig state and reset
the pending write.  (The `refetchRigState()` call is an external read with no
effect on this state.) -/
def handleWinDetected (s : LocalState) : LocalState :=
  { s with
    vrfTimeout := none,
    balancePollArmed := false,
    localSpinState := SpinState.idle,
    preSpinBalance := none,
    txHash := none }

/-- `handleSpin`.  Parameters stand for the hooks and external calls it
reads: `rigState`, `entropyFee`, the connected `address`, whether a
`primaryConnector` exists, the outcome of `connectAsync` (the `accounts`
list on success), the outcome of the awaited `writeContract` call (the
transaction handle on success), and `Date.now()` in milliseconds.  Returns
the new state together with the external actions attempted.  The catch
handler sets the state back to idle and calls `resetWrite()`; it does not
touch `pendingEpochId` or `preSpinBalanceRef`. -/
def handleSpin (rig? : Option RigState) (fee? : Option Nat) (addr : Option String)
    (hasConnector : Bool) (connectResult : Except Unit (List String))
    (submitResult : Except Unit Nat) (nowMs : Nat) (s : LocalState) :
    LocalState × List WalletAction :=
  match rig? with
  | none => (s, [])
  | some rig =>
    if s.localSpinState ≠ SpinState.idle then (s, [])
    else
      let connected : Option String × List WalletAction :=
        match addr with
        | some a => (some a, [])
        | none =>
          if hasConnector then
            match connectResult with
            | Except.error _ => (none, [WalletAction.connectWallet])
            | Except.ok accounts => (accounts.head?, [WalletAction.connectWallet])
          else (none, [])
      match connected with
      | (none, acts) => ({ s with localSpinState := SpinState.idle, txHash := none }, acts)
      | (some _, acts) =>
        let s1 := { s with
          localSpinState := SpinState.pending,
          preSpinBalance := some rig.unitBalance,
          pendingEpochId := some rig.epochId }
        let price := rig.price
        let deadline := nowMs / 1000 + DEADLINE_BUFFER_SECONDS
        let maxPrice := if price = 0 then 0 else price * 105 / 100
        let fee := fee?.getD 0
        let totalValue := price + fee
        let acts2 := acts ++ [WalletAction.submitTx rig.epochId deadline maxPrice totalValue]
        match submitResult with
        | Except.error _ => ({ s1 with localSpinState := SpinState.idle, txHash := none }, acts2)
        | Except.ok h => ({ s1 with localSpinState := SpinState.confirming, txHash := some h }, acts2)

/-- Status of an awaited transaction receipt. -/
inductive ReceiptStatus where
  | success
  | reverted
deriving DecidableEq

/-- The receipt effect: on success enter `waiting_vrf`, arm the VRF hard
timeout and start the balance-poll interval; on a reverted receipt reset to
idle, drop the snapshot and the pending write, arming nothing. -/
def handleReceipt (receipt : Option ReceiptStatus) (nowMs : Nat) (s : LocalState) : LocalState :=
  match receipt with
  | none => s
  | some ReceiptStatus.success =>
    { s with
      localSpinState := SpinState.waiting_vrf,
      vrfTimeout := some (nowMs + VRF_TIMEOUT_MS),
      balancePollArmed := true }
  | some ReceiptStatus.reverted =>
    { s with localSpinState := SpinState.idle, preSpinBalance := none, txHash := none }

/-- Firing of the VRF hard timeout: stop the balance poll, reset to idle,
drop the snapshot and the pending write (the timer itself is consumed). -/
def fireVrfTimeout (s : LocalState) : LocalState :=
  { s with
    balancePollArmed := false,
    localSpinState := SpinState.idle,
    preSpinBalance := none,
    txHash := none,
    vrfTimeout := none }

/-- ASCII lowercase of a string (`toLowerCase` of an address). -/
def lowerString (s : String) : String :=
  String.mk (s.data.map Char.toLower)

/-- The case-insensitive actor comparison of the push-match detector:
`spinner?.toLowerCase() === address?.toLowerCase()`. -/
def spinnerMatches (l : WinLog) (addr : Option String) : Bool :=
  some (lowerString l.spinner) = addr.map lowerString

/-- The push-match detector (`Rig__Win` watcher of the page component): it
is enabled only while `localSpinState` is `waiting_vrf` and an address is
known, and fires `handleWinDetected` at the first log whose spinner matches
the local address (the loop breaks after the first match). -/
def pushWinDetect (logs : List WinLog) (addr : Option String) (s : LocalState) : LocalState :=
  if s.localSpinState = SpinState.waiting_vrf ∧ addr.isSome = true then
    if logs.any (fun l => spinnerMatches l addr) then handleWinDetected s else s
  else s

/-- The balance-delta detector: on each rig-state refresh while in
`waiting_vrf` with a recorded snapshot, an increased `unitBalance` fires
`handleWinDetected`. -/
def balanceDeltaDetect (rig? : Option RigState) (s : LocalState) : LocalState :=
  match rig? with
  | none => s
  | some rig =>
    if s.localSpinState ≠ SpinState.waiting_vrf then s
    else
      match s.preSpinBalance with
      | none => s
      | some pre => if pre < rig.unitBalance then handleWinDetected s else s

/-! ## Timed semantics for the VRF hard timeout -/

/-- A timed configuration: wall-clock milliseconds plus the local machine. -/
structure TimedConfig where
  nowMs : Nat
  loc : LocalState
deriving DecidableEq

/-- Events of the timed run used to state the timeout bound: time passing
(never beyond an armed deadline, since an armed timer fires at its
deadline) and the firing of the VRF timer (enabled only once its deadline
has been reached). -/
inductive TimerEvent where
  | advance (dt : Nat)
  | fireVrf
deriving DecidableEq

/-- One step of the timed semantics; `none` when the event is not enabled. -/
def timerStep (c : TimedConfig) (e : TimerEvent) : Option TimedConfig :=
  match e with
  | TimerEvent.advance dt =>
    match c.loc.vrfTimeout with
    | some d => if c.nowMs + dt ≤ d then some { c with nowMs := c.nowMs + dt } else none
    | none => some { c with nowMs := c.nowMs + dt }
  | TimerEvent.fireVrf =>
    match c.loc.vrfTimeout with
    | some d => if d ≤ c.nowMs then some { nowMs := c.nowMs, loc := fireVrfTimeout c.loc } else none
    | none => none

/-- Run of a list of timed events. -/
def timerRun (c : TimedConfig) : List TimerEvent → Option TimedConfig
  | [] => some c
  | e :: es =>
    match timerStep c e with
    | some c2 => timerRun c2 es
    | none => none

/-! ## Shared concrete inputs -/

/-- A sample `Rig__Win` log (odds 5000 basis points, amount 500 tokens of 18
decimals, mined at block 950). -/
def sampleWinLog : WinLog :=
  { spinner := "0xwinner", epochId := 7, oddsPercent := 5000, amount := 500 * 10 ^ 18,
    txHash := "0xabc", blockNumber := 950 }

/-- A sample `Rig__Spin` log. -/
def sampleSpinLog : SpinLog :=
  { sender := "0xsender", spinner := "0xalice", epochId := 3, price := 1000 }

/-- A sample rig-state snapshot (`unitBalance = 42`, `epochId = 9`). -/
def sampleRig : RigState :=
  { ups := 0, unitPrice := 0, unitBalance := 42, ethBalance := 10, wethBalance := 0,
    prizePool := 0, pendingEmissions := 0, epochId := 9, price := 100 }

/-! ## C1: duplicate delivery of an occurrence -/

/-- C1: counterexample.  The claim says a second delivery of an occurrence
whose id was already applied is ignored — no state field changes and no
timer is re-armed.  The spin handler keeps no set of applied ids: delivering
the same Spin occurrence again one millisecond later changes the state (the
`timestamp` field is refreshed and the liveness timer is cleared and re-armed
with a later deadline), so the claim is false. -/
theorem C1_counterexample :
    applySpinLog sampleSpinLog 1 (applySpinLog sampleSpinLog 0 initialGlobalState) ≠
      applySpinLog sampleSpinLog 0 initialGlobalState := by
  decide

/-- C1 (amended): the handlers keep no applied-id set, so a duplicate
delivery of the same Spin or Win occurrence is re-applied rather than
ignored: it refreshes the occurrence timestamp and re-arms the corresponding
timer at the later delivery time.  Applying the same occurrence twice equals
applying it once at the second delivery time, so duplicates are absorbed and
the identity-carrying fields are unchanged, but the timer deadline moves. -/
theorem C1_redelivery_absorbed (sl : SpinLog) (wl : WinLog) (t1 t2 : Nat) (s : GlobalState) :
    applySpinLog sl t2 (applySpinLog sl t1 s) = applySpinLog sl t2 s ∧
    applyWinLog wl t2 (applyWinLog wl t1 s) = applyWinLog wl t2 s ∧
    (applySpinLog sl t2 (applySpinLog sl t1 s)).spinTimeout =
      some (spinOccurrenceId sl.spinner sl.epochId, t2 + SPIN_TIMEOUT_MS) ∧
    (applyWinLog wl t2 (applyWinLog wl t1 s)).winDisplayTimeout = some (t2 + WIN_DISPLAY_MS) := by
  exact ⟨rfl, rfl, rfl, rfl⟩

/-! ## C2: first-ever poll (backfill) -/

/-- C2: counterexample.  The claim says that after the first-ever poll with
`currentBlock = 1000` the cursor records `lastProcessedBlock = 1000`.  The
code keeps no block cursor at all — only the boolean `hasFetchedInitial` —
so the post-state of the backfill is identical whether the current block was
1000 or 2000: no component of the state records the processed block. -/
theorem C2_counterexample :
    mountFetch [sampleWinLog] false 1000 0 initialGlobalState =
      mountFetch [sampleWinLog] false 2000 0 initialGlobalState := by
  decide

/-- C2 (amended): for the first-ever poll with `currentBlock = 1000`, a
lookback of 1800 blocks and exactly one historical Win log (block 950,
amount `500 * 10 ^ 18`, odds 5000 bps), the backfill sets `lastWin` with
symbol tier jackpot, leaves `showWinHighlight` false, and sets the one-time
first-poll marker `hasFetchedInitial` (the code records no numeric block
cursor).  In general the first-ever poll fetches only Win logs over the
lookback window, applies only the most recent one, and never sets the win
highlight. -/
theorem C2_first_poll_backfill (now : Nat) :
    ((mountFetch [sampleWinLog] false 1000 now initialGlobalState).lastWin.map
      (fun w => w.symbol.tier)) = some Tier.jackpot ∧
    (mountFetch [sampleWinLog] false 1000 now initialGlobalState).showWinResult = false ∧
    (mountFetch [sampleWinLog] false 1000 now initialGlobalState).hasFetchedInitial = true ∧
    (mountFetch [sampleWinLog] false 1000 now initialGlobalState).lastWin =
      some (mkGlobalWin sampleWinLog now) ∧
    (∀ (chain : List WinLog) (cb t : Nat),
      (mountFetch chain false cb t initialGlobalState).showWinResult = false ∧
      (mountFetch chain false cb t initialGlobalState).activeSpin = none ∧
      (mountFetch chain false cb t initialGlobalState).lastWin =
        ((chain.filter (inBackfillWindow cb)).getLast?).map (fun l => mkGlobalWin l t)) := by
  refine ⟨rfl, rfl, rfl, rfl, ?_⟩
  intro chain cb t
  cases h : (chain.filter (inBackfillWindow cb)).getLast? with
  | none => simp [mountFetch, initialGlobalState, h]
  | some l => simp [mountFetch, initialGlobalState, h]

/-! ## C3: transient failure of the first poll -/

/-- C3: counterexample.  The claim says a failed first poll leaves the
first-poll marker unchanged and that the next tick retries the same range,
so no occurrence is permanently skipped.  The code sets `hasFetchedInitial`
before the fetch runs: after a failed backfill the marker is `true` (it was
changed), the historical win at block 950 was not applied, and a subsequent
invocation of the mount effect is a complete no-op — the win is never
retried. -/
theorem C3_counterexample :
    (mountFetch [sampleWinLog] true 1000 0 initialGlobalState).hasFetchedInitial = true ∧
    (mountFetch [sampleWinLog] true 1000 0 initialGlobalState).lastWin = none ∧
    mountFetch [sampleWinLog] false 1000 5 (mountFetch [sampleWinLog] true 1000 0 initialGlobalState) =
      mountFetch [sampleWinLog] true 1000 0 initialGlobalState := by
  exact ⟨rfl, rfl, rfl⟩

/-- C3 (amended): when the first-ever poll fails with a transient fetch
error, the failure is only logged and the displayed state (`lastWin`,
`showWinHighlight`, the active spin and the timers) is left untouched — but
the first-poll marker has already been set before the attempt, and every
later invocation of the effect (the would-be retry) is a complete no-op, so
a historical win can be permanently missed for the session. -/
theorem C3_failed_poll (chain : List WinLog) (cb now : Nat) (s : GlobalState)
    (chain2 : List WinLog) (fails2 : Bool) (cb2 now2 : Nat)
    (h : s.hasFetchedInitial = false) :
    mountFetch chain true cb now s = { s with hasFetchedInitial := true } ∧
    mountFetch chain2 fails2 cb2 now2 { s with hasFetchedInitial := true } =
      { s with hasFetchedInitial := true } := by
  constructor
  · simp [mountFetch, h]
  · simp [mountFetch]

/-- C3 witness: the amended theorem applied at a failed backfill over a
single historical win, followed by a retry attempt. -/
theorem C3_failed_poll_witness :
    mountFetch [sampleWinLog] true 1000 0 initialGlobalState =
      { initialGlobalState with hasFetchedInitial := true } ∧
    mountFetch [sampleWinLog] false 1000 5 { initialGlobalState with hasFetchedInitial := true } =
      { initialGlobalState with hasFetchedInitial := true } :=
  C3_failed_poll [sampleWinLog] 1000 0 initialGlobalState [sampleWinLog] false 1000 5 rfl

/-! ## C5: applying a Win occurrence -/

/-- C5: applying a Win occurrence through the push handler cancels any armed
liveness timeout, clears `activeSpin`, sets the live flag to false and sets
`lastWin` to that occurrence; being a new (non-backfill) occurrence it also
raises `showWinHighlight` and arms the 10-second display timeout, whose
firing clears only the highlight while `lastWin`, `activeSpin` and the live
flag persist unchanged.  A backfill (non-new) Win, applied by the mount
fetch from the fresh-mount state, seeds `lastWin` with the highlight left
down, no active spin and no armed liveness timer. -/
theorem C5_apply_win (l : WinLog) (now : Nat) (s : GlobalState) (cb tb : Nat)
    (hlo : backfillFromBlock cb ≤ l.blockNumber) (hhi : l.blockNumber ≤ cb) :
    (applyWinLog l now s).spinTimeout = none ∧
    (applyWinLog l now s).activeSpin = none ∧
    (applyWinLog l now s).isGlobalSpinning = false ∧
    (applyWinLog l now s).lastWin = some (mkGlobalWin l now) ∧
    (applyWinLog l now s).showWinResult = true ∧
    (applyWinLog l now s).winDisplayTimeout = some (now + WIN_DISPLAY_MS) ∧
    WIN_DISPLAY_MS = 10000 ∧
    (fireWinDisplayTimeout (applyWinLog l now s)).showWinResult = false ∧
    (fireWinDisplayTimeout (applyWinLog l now s)).lastWin = (applyWinLog l now s).lastWin ∧
    (fireWinDisplayTimeout (applyWinLog l now s)).activeSpin = (applyWinLog l now s).activeSpin ∧
    (fireWinDisplayTimeout (applyWinLog l now s)).isGlobalSpinning =
      (applyWinLog l now s).isGlobalSpinning ∧
    (fireWinDisplayTimeout (applyWinLog l now s)).spinTimeout = (applyWinLog l now s).spinTimeout ∧
    (mountFetch [l] false cb tb initialGlobalState).lastWin = some (mkGlobalWin l tb) ∧
    (mountFetch [l] false cb tb initialGlobalState).showWinResult = false ∧
    (mountFetch [l] false cb tb initialGlobalState).activeSpin = none ∧
    (mountFetch [l] false cb tb initialGlobalState).isGlobalSpinning = false ∧
    (mountFetch [l] false cb tb initialGlobalState).spinTimeout = none := by
  have hwin : inBackfillWindow cb l = true := by
    simp [inBackfillWindow, hlo, hhi]
  refine ⟨rfl, rfl, rfl, rfl, rfl, rfl, rfl, rfl, rfl, rfl, rfl, rfl, ?_, ?_, ?_, ?_, ?_⟩ <;>
    simp [mountFetch, initialGlobalState, hwin]

/-- C5 witness: the theorem applied to the sample win delivered at time 0
with the backfill window `[0, 1000]`. -/
theorem C5_apply_win_witness :
    (applyWinLog sampleWinLog 0 initialGlobalState).spinTimeout = none ∧
    (applyWinLog sampleWinLog 0 initialGlobalState).activeSpin = none ∧
    (applyWinLog sampleWinLog 0 initialGlobalState).isGlobalSpinning = false ∧
    (applyWinLog sampleWinLog 0 initialGlobalState).lastWin = some (mkGlobalWin sampleWinLog 0) ∧
    (applyWinLog sampleWinLog 0 initialGlobalState).showWinResult = true ∧
    (applyWinLog sampleWinLog 0 initialGlobalState).winDisplayTimeout = some (0 + WIN_DISPLAY_MS) ∧
    WIN_DISPLAY_MS = 10000 ∧
    (fireWinDisplayTimeout (applyWinLog sampleWinLog 0 initialGlobalState)).showWinResult = false ∧
    (fireWinDisplayTimeout (applyWinLog sampleWinLog 0 initialGlobalState)).lastWin =
      (applyWinLog sampleWinLog 0 initialGlobalState).lastWin ∧
    (fireWinDisplayTimeout (applyWinLog sampleWinLog 0 initialGlobalState)).activeSpin =
      (applyWinLog sampleWinLog 0 initialGlobalState).activeSpin ∧
    (fireWinDisplayTimeout (applyWinLog sampleWinLog 0 initialGlobalState)).isGlobalSpinning =
      (applyWinLog sampleWinLog 0 initialGlobalState).isGlobalSpinning ∧
    (fireWinDisplayTimeout (applyWinLog sampleWinLog 0 initialGlobalState)).spinTimeout =
      (applyWinLog sampleWinLog 0 initialGlobalState).spinTimeout ∧
    (mountFetch [sampleWinLog] false 1000 0 initialGlobalState).lastWin =
      some (mkGlobalWin sampleWinLog 0) ∧
    (mountFetch [sampleWinLog] false 1000 0 initialGlobalState).showWinResult = false ∧
    (mountFetch [sampleWinLog] false 1000 0 initialGlobalState).activeSpin = none ∧
    (mountFetch [sampleWinLog] false 1000 0 initialGlobalState).isGlobalSpinning = false ∧
    (mountFetch [sampleWinLog] false 1000 0 initialGlobalState).spinTimeout = none :=
  C5_apply_win sampleWinLog 0 initialGlobalState 1000 0 (by decide) (by decide)

/-! ## C6: applying a Spin occurrence -/

/-- C6: applying a Spin occurrence sets `activeSpin` to that occurrence,
the live flag to true and the win highlight to false, and arms a liveness
timeout of 120000 ms; when that timeout fires while the spin it was armed
for is still the active one (no matching Win was applied, since a Win both
cancels the timer and clears the active spin), it clears `activeSpin` and
sets the live flag to false. -/
theorem C6_apply_spin (l : SpinLog) (now : Nat) (s t : GlobalState)
    (ht : t.activeSpin.map (fun sp => sp.id) = some (spinOccurrenceId l.spinner l.epochId)) :
    (applySpinLog l now s).activeSpin = some (mkGlobalSpin l now) ∧
    (applySpinLog l now s).isGlobalSpinning = true ∧
    (applySpinLog l now s).showWinResult = false ∧
    (applySpinLog l now s).spinTimeout =
      some (spinOccurrenceId l.spinner l.epochId, now + SPIN_TIMEOUT_MS) ∧
    SPIN_TIMEOUT_MS = 120000 ∧
    (fireSpinTimeout (spinOccurrenceId l.spinner l.epochId) t).activeSpin = none ∧
    (fireSpinTimeout (spinOccurrenceId l.spinner l.epochId) t).isGlobalSpinning = false := by
  refine ⟨rfl, rfl, rfl, rfl, rfl, ?_, rfl⟩
  simp [fireSpinTimeout, ht]

/-- C6 witness: the theorem applied to the sample spin; the timeout fires on
the very state the application produced. -/
theorem C6_apply_spin_witness :
    (applySpinLog sampleSpinLog 0 initialGlobalState).activeSpin =
      some (mkGlobalSpin sampleSpinLog 0) ∧
    (applySpinLog sampleSpinLog 0 initialGlobalState).isGlobalSpinning = true ∧
    (applySpinLog sampleSpinLog 0 initialGlobalState).showWinResult = false ∧
    (applySpinLog sampleSpinLog 0 initialGlobalState).spinTimeout =
      some (spinOccurrenceId sampleSpinLog.spinner sampleSpinLog.epochId, 0 + SPIN_TIMEOUT_MS) ∧
    SPIN_TIMEOUT_MS = 120000 ∧
    (fireSpinTimeout (spinOccurrenceId sampleSpinLog.spinner sampleSpinLog.epochId)
      (applySpinLog sampleSpinLog 0 initialGlobalState)).activeSpin = none ∧
    (fireSpinTimeout (spinOccurrenceId sampleSpinLog.spinner sampleSpinLog.epochId)
      (applySpinLog sampleSpinLog 0 initialGlobalState)).isGlobalSpinning = false :=
  C6_apply_spin sampleSpinLog 0 initialGlobalState
    (applySpinLog sampleSpinLog 0 initialGlobalState) rfl

/-! ## C4: racing completion detectors -/

/-- C4: from `waiting_vrf` (the spec's `awaiting_resolution`), firing the
push-match detector and the balance-delta detector in either order resolves
to idle exactly once: the first firing runs `handleWinDetected` (cancelling
the hard timeout and the balance poll and clearing the pre-spin balance
snapshot), and the second firing is a no-op that re-arms nothing, because
each detector is guarded by a check that the state is still `waiting_vrf`. -/
theorem C4_detector_race (logs : List WinLog) (a : String) (rig : RigState)
    (s : LocalState) (pre : Nat)
    (hstate : s.localSpinState = SpinState.waiting_vrf)
    (hpre : s.preSpinBalance = some pre)
    (hbal : pre < rig.unitBalance)
    (hmatch : logs.any (fun l => spinnerMatches l (some a)) = true) :
    pushWinDetect logs (some a) s = handleWinDetected s ∧
    balanceDeltaDetect (some rig) s = handleWinDetected s ∧
    balanceDeltaDetect (some rig) (pushWinDetect logs (some a) s) =
      pushWinDetect logs (some a) s ∧
    pushWinDetect logs (some a) (balanceDeltaDetect (some rig) s) =
      balanceDeltaDetect (some rig) s ∧
    (handleWinDetected s).localSpinState = SpinState.idle ∧
    (handleWinDetected s).vrfTimeout = none ∧
    (handleWinDetected s).balancePollArmed = false ∧
    (handleWinDetected s).preSpinBalance = none := by
  have h1 : pushWinDetect logs (some a) s = handleWinDetected s := by
    simp [pushWinDetect, hstate, hmatch]
  have h2 : balanceDeltaDetect (some rig) s = handleWinDetected s := by
    simp [balanceDeltaDetect, hstate, hpre, hbal]
  refine ⟨h1, h2, ?_, ?_, rfl, rfl, rfl, rfl⟩
  · rw [h1]; simp [balanceDeltaDetect, handleWinDetected]
  · rw [h2]; simp [pushWinDetect, handleWinDetected]

/-- C4 witness: a concrete `waiting_vrf` state with an armed timeout and
poll, a matching push win (the match is case-insensitive) and an increased
balance. -/
theorem C4_detector_race_witness :
    pushWinDetect
        [{ spinner := "0xME", epochId := 9, oddsPercent := 100, amount := 5,
           txHash := "0xt", blockNumber := 10 }] (some "0xme")
        { localSpinState := SpinState.waiting_vrf, pendingEpochId := some 9,
          preSpinBalance := some 10, vrfTimeout := some 120000,
          balancePollArmed := true, txHash := some 1 } =
      handleWinDetected
        { localSpinState := SpinState.waiting_vrf, pendingEpochId := some 9,
          preSpinBalance := some 10, vrfTimeout := some 120000,
          balancePollArmed := true, txHash := some 1 } ∧
    balanceDeltaDetect (some sampleRig)
        { localSpinState := SpinState.waiting_vrf, pendingEpochId := some 9,
          preSpinBalance := some 10, vrfTimeout := some 120000,
          balancePollArmed := true, txHash := some 1 } =
      handleWinDetected
        { localSpinState := SpinState.waiting_vrf, pendingEpochId := some 9,
          preSpinBalance := some 10, vrfTimeout := some 120000,
          balancePollArmed := true, txHash := some 1 } ∧
    balanceDeltaDetect (some sampleRig)
        (pushWinDetect
          [{ spinner := "0xME", epochId := 9, oddsPercent := 100, amount := 5,
             txHash := "0xt", blockNumber := 10 }] (some "0xme")
          { localSpinState := SpinState.waiting_vrf, pendingEpochId := some 9,
            preSpinBalance := some 10, vrfTimeout := some 120000,
            balancePollArmed := true, txHash := some 1 }) =
      pushWinDetect
        [{ spinner := "0xME", epochId := 9, oddsPercent := 100, amount := 5,
           txHash := "0xt", blockNumber := 10 }] (some "0xme")
        { localSpinState := SpinState.waiting_vrf, pendingEpochId := some 9,
          preSpinBalance := some 10, vrfTimeout := some 120000,
          balancePollArmed := true, txHash := some 1 } ∧
    pushWinDetect
        [{ spinner := "0xME", epochId := 9, oddsPercent := 100, amount := 5,
           txHash := "0xt", blockNumber := 10 }] (some "0xme")
        (balanceDeltaDetect (some sampleRig)
          { localSpinState := SpinState.waiting_vrf, pendingEpochId := some 9,
            preSpinBalance := some 10, vrfTimeout := some 120000,
            balancePollArmed := true, txHash := some 1 }) =
      balanceDeltaDetect (some sampleRig)
        { localSpinState := SpinState.waiting_vrf, pendingEpochId := some 9,
          preSpinBalance := some 10, vrfTimeout := some 120000,
          balancePollArmed := true, txHash := some 1 } ∧
    (handleWinDetected
        { localSpinState := SpinState.waiting_vrf, pendingEpochId := some 9,
          preSpinBalance := some 10, vrfTimeout := some 120000,
          balancePollArmed := true, txHash := some 1 }).localSpinState = SpinState.idle ∧
    (handleWinDetected
        { localSpinState := SpinState.waiting_vrf, pendingEpochId := some 9,
          preSpinBalance := some 10, vrfTimeout := some 120000,
          balancePollArmed := true, txHash := some 1 }).vrfTimeout = none ∧
    (handleWinDetected
        { localSpinState := SpinState.waiting_vrf, pendingEpochId := some 9,
          preSpinBalance := some 10, vrfTimeout := some 120000,
          balancePollArmed := true, txHash := some 1 }).balancePollArmed = false ∧
    (handleWinDetected
        { localSpinState := SpinState.waiting_vrf, pendingEpochId := some 9,
          preSpinBalance := some 10, vrfTimeout := some 120000,
          balancePollArmed := true, txHash := some 1 }).preSpinBalance = none :=
  C4_detector_race
    [{ spinner := "0xME", epochId := 9, oddsPercent := 100, amount := 5,
       txHash := "0xt", blockNumber := 10 }] "0xme" sampleRig
    { localSpinState := SpinState.waiting_vrf, pendingEpochId := some 9,
      preSpinBalance := some 10, vrfTimeout := some 120000,
      balancePollArmed := true, txHash := some 1 } 10
    rfl rfl (by decide) (by decide)

/-! ## C7: error paths of the lifecycle machine -/

/-- C7: counterexample.  The claim says that when submission throws, the
state falls back to idle with the pending fields (`preActionBalanceSnapshot`
and `pendingEpochId`) discarded.  Running `handleSpin` from the idle session
state with a connected address and a submission that throws leaves the state
idle but keeps `preSpinBalance = some 42` and `pendingEpochId = some 9` —
the catch handler only resets the state tag and the pending write, so the
pending fields are not discarded. -/
theorem C7_counterexample :
    (handleSpin (some sampleRig) (some 3) (some "0xme") true (Except.ok [])
        (Except.error ()) 0 initialLocalState).1.localSpinState = SpinState.idle ∧
    (handleSpin (some sampleRig) (some 3) (some "0xme") true (Except.ok [])
        (Except.error ()) 0 initialLocalState).1.preSpinBalance = some 42 ∧
    (handleSpin (some sampleRig) (some 3) (some "0xme") true (Except.ok [])
        (Except.error ()) 0 initialLocalState).1.pendingEpochId = some 9 := by
  exact ⟨rfl, rfl, rfl⟩

/-- C7 (amended): a submit records the pre-action balance snapshot and the
pending epoch id; if connection or submission throws, the state falls back
to idle and the pending write is reset, but `pendingEpochId` and (after a
submission throw) `preActionBalanceSnapshot` are retained rather than
discarded — harmless since every detector also checks that the state is
`waiting_vrf`.  A reverted receipt resets the state to idle immediately,
clears the snapshot, resets the pending write and arms no detectors. -/
theorem C7_error_paths (rig : RigState) (fee? : Option Nat) (a : String) (nowMs : Nat)
    (s sc : LocalState)
    (hidle : s.localSpinState = SpinState.idle)
    (hnoVrf : sc.vrfTimeout = none) (hnoPoll : sc.balancePollArmed = false) :
    handleSpin (some rig) fee? none true (Except.error ()) (Except.ok 0) nowMs s =
      ({ s with localSpinState := SpinState.idle, txHash := none },
        [WalletAction.connectWallet]) ∧
    (handleSpin (some rig) fee? (some a) true (Except.ok [a]) (Except.error ()) nowMs s).1 =
      { s with localSpinState := SpinState.idle, txHash := none,
               preSpinBalance := some rig.unitBalance, pendingEpochId := some rig.epochId } ∧
    handleReceipt (some ReceiptStatus.reverted) nowMs sc =
      { sc with localSpinState := SpinState.idle, preSpinBalance := none, txHash := none } ∧
    (handleReceipt (some ReceiptStatus.reverted) nowMs sc).vrfTimeout = none ∧
    (handleReceipt (some ReceiptStatus.reverted) nowMs sc).balancePollArmed = false := by
  refine ⟨?_, ?_, rfl, ?_, ?_⟩
  · simp [handleSpin, hidle]
  · simp [handleSpin, hidle]
  · simp [handleReceipt, hnoVrf]
  · simp [handleReceipt, hnoPoll]

/-- C7 witness: the amended theorem at the session-initial state and a
confirming state with nothing armed. -/
theorem C7_error_paths_witness :
    handleSpin (some sampleRig) (some 3) none true (Except.error ()) (Except.ok 0) 0
        initialLocalState =
      ({ initialLocalState with localSpinState := SpinState.idle, txHash := none },
        [WalletAction.connectWallet]) ∧
    (handleSpin (some sampleRig) (some 3) (some "0xme") true (Except.ok ["0xme"])
        (Except.error ()) 0 initialLocalState).1 =
      { initialLocalState with
        localSpinState := SpinState.idle, txHash := none,
        preSpinBalance := some sampleRig.unitBalance,
        pendingEpochId := some sampleRig.epochId } ∧
    handleReceipt (some ReceiptStatus.reverted) 0
        { initialLocalState with localSpinState := SpinState.confirming, txHash := some 1 } =
      { ({ initialLocalState with localSpinState := SpinState.confirming, txHash := some 1 }) with
        localSpinState := SpinState.idle, preSpinBalance := none, txHash := none } ∧
    (handleReceipt (some ReceiptStatus.reverted) 0
        { initialLocalState with
          localSpinState := SpinState.confirming,
          txHash := some 1 }).vrfTimeout = none ∧
    (handleReceipt (some ReceiptStatus.reverted) 0
        { initialLocalState with
          localSpinState := SpinState.confirming,
          txHash := some 1 }).balancePollArmed = false :=
  C7_error_paths sampleRig (some 3) "0xme" 0 initialLocalState
    { initialLocalState with localSpinState := SpinState.confirming, txHash := some 1 }
    rfl rfl rfl

/-! ## C8: successful submit and receipt, then a foreign win -/

/-- C8: after a successful submit and a successful receipt the machine is in
`waiting_vrf` with `pendingEpochId` set and the detectors armed (the VRF
hard timeout and the balance-poll interval are armed, and the push watcher's
enabling condition — `waiting_vrf` with a known address — holds); a push
Win whose actor differs from the local user's address (case-insensitively,
as the code compares lowercased addresses) does not resolve the state. -/
theorem C8_resolution_armed (rig : RigState) (fee? : Option Nat) (a : String) (h : Nat)
    (nowMs t1 : Nat) (s : LocalState) (l : WinLog)
    (hidle : s.localSpinState = SpinState.idle)
    (hdiff : spinnerMatches l (some a) = false) :
    (handleSpin (some rig) fee? (some a) true (Except.ok [a]) (Except.ok h) nowMs s).1.localSpinState
        = SpinState.confirming ∧
    (handleReceipt (some ReceiptStatus.success) t1
        (handleSpin (some rig) fee? (some a) true (Except.ok [a])
          (Except.ok h) nowMs s).1).localSpinState = SpinState.waiting_vrf ∧
    (handleReceipt (some ReceiptStatus.success) t1
        (handleSpin (some rig) fee? (some a) true (Except.ok [a])
          (Except.ok h) nowMs s).1).pendingEpochId = some rig.epochId ∧
    (handleReceipt (some ReceiptStatus.success) t1
        (handleSpin (some rig) fee? (some a) true (Except.ok [a])
          (Except.ok h) nowMs s).1).vrfTimeout = some (t1 + VRF_TIMEOUT_MS) ∧
    (handleReceipt (some ReceiptStatus.success) t1
        (handleSpin (some rig) fee? (some a) true (Except.ok [a])
          (Except.ok h) nowMs s).1).balancePollArmed = true ∧
    (handleReceipt (some ReceiptStatus.success) t1
        (handleSpin (some rig) fee? (some a) true (Except.ok [a])
          (Except.ok h) nowMs s).1).preSpinBalance = some rig.unitBalance ∧
    pushWinDetect [l] (some a)
        (handleReceipt (some ReceiptStatus.success) t1
          (handleSpin (some rig) fee? (some a) true (Except.ok [a])
            (Except.ok h) nowMs s).1) =
      handleReceipt (some ReceiptStatus.success) t1
        (handleSpin (some rig) fee? (some a) true (Except.ok [a]) (Except.ok h) nowMs s).1 := by
  refine ⟨?_, ?_, ?_, ?_, ?_, ?_, ?_⟩ <;>
    simp [handleSpin, hidle, handleReceipt, pushWinDetect, hdiff]

/-- C8 witness: concrete run with a later push win from a different actor. -/
theorem C8_resolution_armed_witness :
    (handleSpin (some sampleRig) (some 3) (some "0xme") true (Except.ok ["0xme"])
        (Except.ok 5) 0 initialLocalState).1.localSpinState = SpinState.confirming ∧
    (handleReceipt (some ReceiptStatus.success) 7
        (handleSpin (some sampleRig) (some 3) (some "0xme") true (Except.ok ["0xme"])
          (Except.ok 5) 0 initialLocalState).1).localSpinState = SpinState.waiting_vrf ∧
    (handleReceipt (some ReceiptStatus.success) 7
        (handleSpin (some sampleRig) (some 3) (some "0xme") true (Except.ok ["0xme"])
          (Except.ok 5) 0 initialLocalState).1).pendingEpochId = some sampleRig.epochId ∧
    (handleReceipt (some ReceiptStatus.success) 7
        (handleSpin (some sampleRig) (some 3) (some "0xme") true (Except.ok ["0xme"])
          (Except.ok 5) 0 initialLocalState).1).vrfTimeout = some (7 + VRF_TIMEOUT_MS) ∧
    (handleReceipt (some ReceiptStatus.success) 7
        (handleSpin (some sampleRig) (some 3) (some "0xme") true (Except.ok ["0xme"])
          (Except.ok 5) 0 initialLocalState).1).balancePollArmed = true ∧
    (handleReceipt (some ReceiptStatus.success) 7
        (handleSpin (some sampleRig) (some 3) (some "0xme") true (Except.ok ["0xme"])
          (Except.ok 5) 0 initialLocalState).1).preSpinBalance = some sampleRig.unitBalance ∧
    pushWinDetect [sampleWinLog] (some "0xme")
        (handleReceipt (some ReceiptStatus.success) 7
          (handleSpin (some sampleRig) (some 3) (some "0xme") true (Except.ok ["0xme"])
            (Except.ok 5) 0 initialLocalState).1) =
      handleReceipt (some ReceiptStatus.success) 7
        (handleSpin (some sampleRig) (some 3) (some "0xme") true (Except.ok ["0xme"])
          (Except.ok 5) 0 initialLocalState).1 :=
  C8_resolution_armed sampleRig (some 3) "0xme" 5 0 7 initialLocalState sampleWinLog
    rfl (by decide)

/-! ## C10: the idle guard of the spin handler -/

/-- C10: invoking the spin submit handler when the local action state is not
idle, or before the rig state snapshot has loaded, is a complete no-op: the
state is returned unchanged (no field of the local action state changes) and
no external action — neither a wallet connection nor a transaction
submission — is attempted. -/
theorem C10_spin_guard (rig? : Option RigState) (fee? : Option Nat) (addr : Option String)
    (hasConnector : Bool) (cr : Except Unit (List String)) (sr : Except Unit Nat)
    (nowMs : Nat) (s : LocalState)
    (hguard : rig? = none ∨ s.localSpinState ≠ SpinState.idle) :
    handleSpin rig? fee? addr hasConnector cr sr nowMs s = (s, []) := by
  cases hguard with
  | inl hnone => subst hnone; rfl
  | inr hbusy =>
    cases rig? with
    | none => rfl
    | some rig => simp [handleSpin, hbusy]

/-- C10 witness: a spin attempt while a previous action is awaiting its VRF
resolution changes nothing and attempts nothing. -/
theorem C10_spin_guard_witness :
    handleSpin (some sampleRig) (some 3) (some "0xme") true (Except.ok ["0xme"])
        (Except.ok 5) 0
        { initialLocalState with localSpinState := SpinState.waiting_vrf } =
      ({ initialLocalState with localSpinState := SpinState.waiting_vrf }, []) :=
  C10_spin_guard (some sampleRig) (some 3) (some "0xme") true (Except.ok ["0xme"])
    (Except.ok 5) 0 { initialLocalState with localSpinState := SpinState.waiting_vrf }
    (Or.inr (by decide))

/-! ## C9: the VRF hard timeout bound -/

/-- Invariant of a timed run started right after a successful receipt armed
the VRF timer with deadline `dl`: the machine either still carries the
armed-receipt state unchanged, or the timer has fired — which can only have
happened at or after `dl`. -/
theorem timerRun_inv (L0 : LocalState) (dl : Nat) (hL0t : L0.vrfTimeout = some dl) :
    ∀ (evs : List TimerEvent) (c c' : TimedConfig),
      (c.loc = L0 ∨ (c.loc = fireVrfTimeout L0 ∧ dl ≤ c.nowMs)) →
      timerRun c evs = some c' →
      (c'.loc = L0 ∨ (c'.loc = fireVrfTimeout L0 ∧ dl ≤ c'.nowMs)) := by
  intro evs
  induction evs with
  | nil =>
    intro c c' hinv hrun
    simp only [timerRun, Option.some.injEq] at hrun
    exact hrun ▸ hinv
  | cons e es ih =>
    intro c c' hinv hrun
    simp only [timerRun] at hrun
    cases hstep : timerStep c e with
    | none => rw [hstep] at hrun; cases hrun
    | some c2 =>
      rw [hstep] at hrun
      refine ih c2 c' ?_ hrun
      cases e with
      | advance dt =>
        have hloc : c2.loc = c.loc ∧ c.nowMs ≤ c2.nowMs := by
          simp only [timerStep] at hstep
          cases hvt : c.loc.vrfTimeout with
          | none =>
            rw [hvt] at hstep
            cases hstep
            exact ⟨rfl, Nat.le_add_right _ _⟩
          | some d =>
            simp only [hvt] at hstep
            by_cases hle : c.nowMs + dt ≤ d
            · rw [if_pos hle] at hstep
              cases hstep
              exact ⟨rfl, Nat.le_add_right _ _⟩
            · rw [if_neg hle] at hstep
              cases hstep
        cases hinv with
        | inl h => exact Or.inl (hloc.1.trans h)
        | inr h => exact Or.inr ⟨hloc.1.trans h.1, le_trans h.2 hloc.2⟩
      | fireVrf =>
        cases hinv with
        | inl h =>
          simp only [timerStep, h, hL0t] at hstep
          by_cases hle : dl ≤ c.nowMs
          · rw [if_pos hle] at hstep
            cases hstep
            exact Or.inr ⟨rfl, hle⟩
          · rw [if_neg hle] at hstep
            cases hstep
        | inr h =>
          have hnone : c.loc.vrfTimeout = none := by
            rw [h.1]; rfl
          simp only [timerStep, hnone] at hstep
          cases hstep

/-- C9: if no detector fires, the machine leaves `waiting_vrf` for idle
exactly via the hard timeout: in any timed run after a successful receipt
(which arms the VRF timer for `VRF_TIMEOUT_MS = 120000` milliseconds) in
which only time passes and the timer may fire, every configuration whose
state is idle lies at or after the armed deadline — never before — and in
it the balance-poll detector has been cancelled, the pre-spin balance
snapshot cleared and the timer consumed. -/
theorem C9_timeout_bound (t0 : Nat) (s : LocalState) (evs : List TimerEvent)
    (c' : TimedConfig)
    (hrun : timerRun
      { nowMs := t0, loc := handleReceipt (some ReceiptStatus.success) t0 s } evs = some c')
    (hidle : c'.loc.localSpinState = SpinState.idle) :
    t0 + VRF_TIMEOUT_MS ≤ c'.nowMs ∧
    c'.loc.balancePollArmed = false ∧
    c'.loc.preSpinBalance = none ∧
    c'.loc.vrfTimeout = none := by
  have hL0t : (handleReceipt (some ReceiptStatus.success) t0 s).vrfTimeout =
      some (t0 + VRF_TIMEOUT_MS) := rfl
  have hinv := timerRun_inv (handleReceipt (some ReceiptStatus.success) t0 s)
    (t0 + VRF_TIMEOUT_MS) hL0t evs
    { nowMs := t0, loc := handleReceipt (some ReceiptStatus.success) t0 s } c'
    (Or.inl rfl) hrun
  cases hinv with
  | inl h =>
    have : c'.loc.localSpinState = SpinState.waiting_vrf := by rw [h]; rfl
    rw [hidle] at this
    cases this
  | inr h =>
    refine ⟨h.2, ?_, ?_, ?_⟩ <;> rw [h.1] <;> rfl

/-- C9 witness: starting at time 0, letting exactly the timeout duration
pass and firing the timer reaches idle at 120000 ms with the poll cancelled
and the snapshot cleared. -/
theorem C9_timeout_bound_witness :
    0 + VRF_TIMEOUT_MS ≤
      (TimedConfig.mk 120000
        (fireVrfTimeout (handleReceipt (some ReceiptStatus.success) 0 initialLocalState))).nowMs ∧
    (TimedConfig.mk 120000
      (fireVrfTimeout (handleReceipt (some ReceiptStatus.success) 0
        initialLocalState))).loc.balancePollArmed = false ∧
    (TimedConfig.mk 120000
      (fireVrfTimeout (handleReceipt (some ReceiptStatus.success) 0
        initialLocalState))).loc.preSpinBalance = none ∧
    (TimedConfig.mk 120000
      (fireVrfTimeout (handleReceipt (some ReceiptStatus.success) 0
        initialLocalState))).loc.vrfTimeout = none :=
  C9_timeout_bound 0 initialLocalState [TimerEvent.advance 120000, TimerEvent.fireVrf]
    (TimedConfig.mk 120000
      (fireVrfTimeout (handleReceipt (some ReceiptStatus.success) 0 initialLocalState)))
    (by decide) rfl
